import Mathlib

/-!
Shallow embedding of the lottery-dashboard pipeline:
  scripts/clean_powerball.py  (Ingestor `read_powerball_csv`, Transformer
    `to_date`, `clean_types`, `dedupe_by_draw`, `build_wide`, `build_long`,
    and the static data dictionary of `main`)
  scripts/load_to_sqlite.py   (Loader `infer_schema`, `coerce_types`,
    `create_table`, `insert_rows`, `main`)

Machine-level conventions of the embedding:
  - A raw CSV cell (after the pandas read with dtype inference) is `Cell`:
    a number, a non-numeric text, or a null.  Numeric-looking text is read
    by pandas as a number, so it is represented by `Cell.num` directly;
    `Cell.text` stands for cells that do not parse as numbers.
  - `pd.to_numeric(..., errors="coerce")` on such a cell is `toNumeric`.
  - Nullable Int64 columns are `Option Int`.
  - `pd.to_datetime(dict(year,month,day), errors="coerce")` is `mkDate`:
    it returns a date exactly when the (year, month, day) triple is a
    possible calendar date (month 1..12, day within the month, Gregorian
    leap rule), and null otherwise.
  - Frames are lists of records; per-column frame operations become
    per-row record operations.
-/

/-- One raw CSV cell as materialised by the pandas read in
`read_powerball_csv` (no dtype given, so numeric text is a number). -/
inductive Cell where
  | num (n : Int)
  | text (s : String)
  | null
deriving DecidableEq, Repr

/-- Models `pd.to_numeric(col, errors="coerce")` on one cell: numbers pass
through, non-numeric text and nulls coerce to null. -/
def toNumeric : Cell → Option Int
  | Cell.num n => some n
  | Cell.text _ => none
  | Cell.null => none

/-- A calendar date value (the pandas datetime64 cell). -/
structure Date where
  year : Int
  month : Int
  day : Int
deriving DecidableEq, Repr

/-- Gregorian leap-year rule, as used by the pandas datetime constructor. -/
def isLeap (y : Int) : Bool :=
  (y % 4 == 0 && y % 100 != 0) || y % 400 == 0

/-- Number of days in a month of a given year. -/
def daysInMonth (y m : Int) : Int :=
  if m == 2 then (if isLeap y then 29 else 28)
  else if m == 4 || m == 6 || m == 9 || m == 11 then 30
  else 31

/-- A (year, month, day) triple that forms a possible calendar date. -/
def dateValid (d : Date) : Prop :=
  1 ≤ d.month ∧ d.month ≤ 12 ∧ 1 ≤ d.day ∧ d.day ≤ daysInMonth d.year d.month

instance (d : Date) : Decidable (dateValid d) := by
  unfold dateValid; infer_instance

/-- Models `pd.to_datetime(dict(year=y, month=m, day=d), errors="coerce")`
on one row: a date when the triple is a possible calendar date, else null. -/
def mkDate (y m d : Int) : Option Date :=
  if dateValid ⟨y, m, d⟩ then some ⟨y, m, d⟩ else none

/-- Integer key that orders dates chronologically (months and days occupy
two decimal digits each, which is enough since valid dates have
month ≤ 12 and day ≤ 31). -/
def dateKey (d : Date) : Int :=
  d.year * 10000 + d.month * 100 + d.day

/-- The "YYYY-MM" string produced by `Date.dt.to_period("M").astype(str)`. -/
def yearMonth (d : Date) : String :=
  toString d.year ++ "-" ++
    (if d.month < 10 then "0" ++ toString d.month else toString d.month)

/-- One row of the normalised 11-column raw frame produced by
`read_powerball_csv` (fields in the fixed source column order). -/
structure RawRow where
  Game : Cell
  Month : Cell
  Day : Cell
  Year : Cell
  Num1 : Cell
  Num2 : Cell
  Num3 : Cell
  Num4 : Cell
  Num5 : Cell
  Powerball : Cell
  PowerPlay : Cell
deriving DecidableEq, Repr

/-- The cells of a raw row in the fixed 11-column order
Game, Month, Day, Year, Num1..Num5, Powerball, PowerPlay. -/
def RawRow.toList (r : RawRow) : List Cell :=
  [r.Game, r.Month, r.Day, r.Year, r.Num1, r.Num2, r.Num3, r.Num4, r.Num5,
   r.Powerball, r.PowerPlay]

/-- Packs an 11-cell list into a `RawRow` (the column assignment of
`read_powerball_csv` for an 11-column frame). -/
def assign11 : List Cell → Option RawRow
  | [g, mo, d, y, n1, n2, n3, n4, n5, pb, pp] =>
      some ⟨g, mo, d, y, n1, n2, n3, n4, n5, pb, pp⟩
  | _ => none

/-- The error message of the `ValueError` raised on an unexpected width. -/
def unexpectedColsMsg (n : Nat) : String :=
  "Unexpected number of columns: " ++ toString n ++ " (expected 10 or 11)."

/-- Models `read_powerball_csv`: `ncols` is the frame width `df.shape[1]`,
`rows` are the raw rows.  Width 11 assigns the full column list; width 10
assigns the list without PowerPlay and then adds PowerPlay as null (here:
appending a null cell); any other width raises `ValueError`.  The final
column selection on line 42 of the source is the fixed field order of
`RawRow`. -/
def read_powerball_csv (ncols : Nat) (rows : List (List Cell)) :
    Except String (List RawRow) :=
  if ncols = 11 then
    Except.ok (rows.filterMap assign11)
  else if ncols = 10 then
    Except.ok (rows.filterMap (fun r => assign11 (r ++ [Cell.null])))
  else
    Except.error (unexpectedColsMsg ncols)

/-- Models `to_date` on one row: `to_numeric` on Month/Day/Year with null
coercion, then the datetime constructor with null coercion. -/
def to_date (r : RawRow) : Option Date :=
  match toNumeric r.Year, toNumeric r.Month, toNumeric r.Day with
  | some y, some m, some d => mkDate y m d
  | _, _, _ => none

/-- One row of the wide frame after line 78 of the source: the ball columns
are nullable Int64 (`Option Int`), although `build_wide` filters the nulls
out of Num1..Num5 and Powerball before this point; Date is non-null after
the filter on line 66. -/
structure WideRow where
  Date : Date
  Num1 : Option Int
  Num2 : Option Int
  Num3 : Option Int
  Num4 : Option Int
  Num5 : Option Int
  Powerball : Option Int
  PowerPlay : Option Int
  Year : Int
  YearMonth : String
deriving DecidableEq, Repr

/-- The per-row condition of the filters on lines 70-71 of the source: all
of Num1..Num5 and Powerball coerce to non-null numbers.  (`clean_types`
performs the `to_numeric(...).astype("Int64")` coercion; the Game strip it
also performs is dropped with the Game column on line 78.) -/
def hasAllNums (rd : RawRow × Date) : Bool :=
  (toNumeric rd.1.Num1).isSome && (toNumeric rd.1.Num2).isSome &&
  (toNumeric rd.1.Num3).isSome && (toNumeric rd.1.Num4).isSome &&
  (toNumeric rd.1.Num5).isSome && (toNumeric rd.1.Powerball).isSome

/-- The column selection of lines 74-78 of the source on one surviving row:
coerced ball numbers, preserved PowerPlay, derived Year and YearMonth. -/
def toWideRow (rd : RawRow × Date) : WideRow :=
  { Date := rd.2
    Num1 := toNumeric rd.1.Num1
    Num2 := toNumeric rd.1.Num2
    Num3 := toNumeric rd.1.Num3
    Num4 := toNumeric rd.1.Num4
    Num5 := toNumeric rd.1.Num5
    Powerball := toNumeric rd.1.Powerball
    PowerPlay := toNumeric rd.1.PowerPlay
    Year := rd.2.year
    YearMonth := yearMonth rd.2 }

/-- Lines 64-78 of `build_wide`: derive Date and drop rows with a null
Date, coerce and drop rows with a null ball number, derive the helper
columns and select the lean columns. -/
def wide_pre (rows : List RawRow) : List WideRow :=
  (((rows.filterMap (fun r => (to_date r).map (fun d => (r, d)))).filter
      hasAllNums).map toWideRow)

/-- The fate of a single input row in lines 64-78: the wide row it yields,
or null when it is dropped by the Date or ball-number filters. -/
def toWide? (r : RawRow) : Option WideRow :=
  match to_date r with
  | none => none
  | some d => if hasAllNums (r, d) then some (toWideRow (r, d)) else none

/-- Line 79 of the source: `sort_values("Date")`, ascending.  A stable
insertion sort; rows with equal dates keep their relative order, which is
all the downstream deduplication can observe since `dateKey` is injective
on valid dates. -/
def sort_by_date (l : List WideRow) : List WideRow :=
  l.insertionSort (fun a b => dateKey a.Date ≤ dateKey b.Date)

/-- The deduplication key of `dedupe_by_draw`:
(Date, Num1..Num5, Powerball, PowerPlay).  pandas `drop_duplicates`
treats null as equal to null, exactly as `Option.none = Option.none`. -/
def drawKey (w : WideRow) :
    Date × Option Int × Option Int × Option Int × Option Int × Option Int ×
      Option Int × Option Int :=
  (w.Date, w.Num1, w.Num2, w.Num3, w.Num4, w.Num5, w.Powerball, w.PowerPlay)

/-- Worker of `dedupe_by_draw`: keep a row iff its key was not seen before
(`drop_duplicates(subset=keys, keep="first")`). -/
def dedupeAux (seen : List (Date × Option Int × Option Int × Option Int ×
    Option Int × Option Int × Option Int × Option Int)) :
    List WideRow → List WideRow
  | [] => []
  | r :: rs =>
      if drawKey r ∈ seen then dedupeAux seen rs
      else r :: dedupeAux (drawKey r :: seen) rs

/-- Models `dedupe_by_draw` (lines 59-61 of the source). -/
def dedupe_by_draw (l : List WideRow) : List WideRow :=
  dedupeAux [] l

/-- Models `build_wide` (lines 63-81 of the source): the row pipeline of
lines 64-78, then the Date sort of line 79, then the deduplication of
line 80. -/
def build_wide (rows : List RawRow) : List WideRow :=
  dedupe_by_draw (sort_by_date (wide_pre rows))

/-- The Position column of the long frame: an integer 1..5 for melted main
balls (after `str.extract(..).astype(int)`), the literal text "PB" for the
bonus row.  The pandas column holds this mix after the concat. -/
inductive BallPos where
  | posInt (n : Int)
  | posStr (s : String)
deriving DecidableEq, Repr

/-- One row of the long frame (columns in the order of line 98). -/
structure LongRow where
  Date : Date
  BallType : String
  BallNumber : Option Int
  Position : BallPos
  PowerPlay : Option Int
  Year : Int
  YearMonth : String
deriving DecidableEq, Repr

/-- Decimal value of a digit sequence (the `astype(int)` cast of the
extracted digit text). -/
def digitsToNat (cs : List Char) : Nat :=
  cs.foldl (fun acc c => acc * 10 + (c.toNat - 48)) 0

/-- The digit extraction of line 90: `str.extract(r"(\d+)").astype(int)`
applied to a melted variable name such as "Num1". -/
def extractDigits (s : String) : Int :=
  Int.ofNat (digitsToNat (s.toList.filter Char.isDigit))

/-- The `value_vars` of the melt on line 86, each column name paired with
the column it names in the wide frame. -/
def value_vars : List (String × (WideRow → Option Int)) :=
  [("Num1", WideRow.Num1), ("Num2", WideRow.Num2), ("Num3", WideRow.Num3),
   ("Num4", WideRow.Num4), ("Num5", WideRow.Num5)]

/-- The long row the melt of lines 84-91 produces from one wide row for
one value variable: the id_vars Date, PowerPlay, Year, YearMonth are kept,
BallNumber is the melted value, Position is the digit extracted from the
variable name, BallType is "Main". -/
def mainRowOf (vp : String × (WideRow → Option Int)) (w : WideRow) :
    LongRow :=
  { Date := w.Date, BallType := "Main", BallNumber := vp.2 w,
    Position := BallPos.posInt (extractDigits vp.1),
    PowerPlay := w.PowerPlay, Year := w.Year, YearMonth := w.YearMonth }

/-- Lines 84-91 of the source fused per row: the melt stacks one block per
value variable (all wide rows for Num1, then all for Num2, ...). -/
def melt_main (wide : List WideRow) : List LongRow :=
  value_vars.flatMap (fun vp => wide.map (mainRowOf vp))

/-- The Powerball row of lines 93-96 for one wide row: Powerball renamed
to BallNumber, Position "PB", BallType "Powerball". -/
def pbRowOf (w : WideRow) : LongRow :=
  { Date := w.Date, BallType := "Powerball", BallNumber := w.Powerball,
    Position := BallPos.posStr "PB",
    PowerPlay := w.PowerPlay, Year := w.Year, YearMonth := w.YearMonth }

/-- Lines 93-96 of the source: the Powerball block, one row per wide row. -/
def pb_rows (wide : List WideRow) : List LongRow :=
  wide.map pbRowOf

/-- Line 100 of the source on one BallNumber cell:
`pd.to_numeric(...).astype("Int64")` on a column that already holds
nullable integers is the identity (numbers pass through, null stays null). -/
def renumber (x : Option Int) : Option Int := x

/-- Models `build_long` (lines 83-101): the melted Main block, then the
Powerball block, concatenated, with the final BallNumber coercion. -/
def build_long (wide : List WideRow) : List LongRow :=
  (melt_main wide ++ pb_rows wide).map
    (fun lr => { lr with BallNumber := renumber lr.BallNumber })

/-- The static data dictionary built in `main` (lines 117-131): a fixed
list of (column, description) pairs, independent of the input data. -/
def data_dict : List (String × String) :=
  [("Date", "Draw date (YYYY-MM-DD)"),
   ("Num1", "First main ball"),
   ("Num2", "Second main ball"),
   ("Num3", "Third main ball"),
   ("Num4", "Fourth main ball"),
   ("Num5", "Fifth main ball"),
   ("Powerball", "Powerball number"),
   ("PowerPlay", "Power Play multiplier (may be blank)"),
   ("Year", "Calendar year"),
   ("YearMonth", "YYYY-MM period string"),
   ("BallType", "Main or Powerball (long format only)"),
   ("BallNumber", "Ball number value"),
   ("Position", "Position: 1..5 for main, PB for Powerball (long only)")]

/-- A relational column type of the Loader schemas. -/
inductive SqlType where
  | integer
  | sqlText
deriving DecidableEq, Repr

/-- A value inserted into the relational store. -/
inductive SqlValue where
  | int (n : Int)
  | str (s : String)
  | null
deriving DecidableEq, Repr

/-- A cell of the Loader input CSV, which is read with `dtype=str` and
`na_values`: a text value or null. -/
abbrev LoadCell := Option String

/-- The LONG_COLS constant of the Loader. -/
def LONG_COLS : List String :=
  ["Date", "BallType", "BallNumber", "Position", "PowerPlay", "Year",
   "YearMonth"]

/-- The WIDE_COLS constant of the Loader. -/
def WIDE_COLS : List String :=
  ["Date", "Num1", "Num2", "Num3", "Num4", "Num5", "Powerball", "PowerPlay",
   "Year", "YearMonth"]

/-- The long schema dictionary of `infer_schema` (insertion order kept). -/
def long_schema : List (String × SqlType) :=
  [("Date", SqlType.sqlText), ("BallType", SqlType.sqlText),
   ("BallNumber", SqlType.integer), ("Position", SqlType.sqlText),
   ("PowerPlay", SqlType.integer), ("Year", SqlType.integer),
   ("YearMonth", SqlType.sqlText)]

/-- The wide schema dictionary of `infer_schema` (insertion order kept). -/
def wide_schema : List (String × SqlType) :=
  [("Date", SqlType.sqlText), ("Num1", SqlType.integer),
   ("Num2", SqlType.integer), ("Num3", SqlType.integer),
   ("Num4", SqlType.integer), ("Num5", SqlType.integer),
   ("Powerball", SqlType.integer), ("PowerPlay", SqlType.integer),
   ("Year", SqlType.integer), ("YearMonth", SqlType.sqlText)]

/-- Models `infer_schema`: the schema dictionary and the ordered column
list for "long" or "wide", a `SystemExit` for anything else. -/
def infer_schema (schema : String) :
    Except String (List (String × SqlType) × List String) :=
  if schema = "long" then Except.ok (long_schema, LONG_COLS)
  else if schema = "wide" then Except.ok (wide_schema, WIDE_COLS)
  else Except.error ("Unknown schema: " ++ schema)

/-- The Loader input file: the header row and the string-typed data rows
(cells are null where the text was empty, "NA" or "NaN"). -/
structure CsvFile where
  header : List String
  rows : List (List LoadCell)
deriving DecidableEq, Repr

/-- The cell of a row under a named column: position of the name in the
header, then the cell at that position.  (pandas headers are unique after
mangling, so the first position is the column.) -/
def getCol (header : List String) (row : List LoadCell) (c : String) :
    LoadCell :=
  match header.findIdx? (fun h => h == c) with
  | some i => (row.get? i).getD none
  | none => none

/-- Python `str()` of a string-typed pandas cell: the text itself, and
"nan" for a null (this is how `astype(str)` stringifies missing values). -/
def pyStr : LoadCell → String
  | some s => s
  | none => "nan"

/-- Models `pd.to_numeric(errors="coerce").astype("Int64")` on one
string-typed cell; `String.toInt?` stands in for the pandas numeric
parser, which is not repository code. -/
def parseNumeric (c : LoadCell) : Option Int :=
  c.bind String.toInt?

/-- `coerce_types` on one cell of a declared column: INTEGER columns are
coerced to nullable integers (a null reaches the store as NULL via the
`pd.isna` conversion in `insert_rows`), TEXT columns are stringified. -/
def coerceValue (t : SqlType) (c : LoadCell) : SqlValue :=
  match t with
  | SqlType.integer =>
      match parseNumeric c with
      | some n => SqlValue.int n
      | none => SqlValue.null
  | SqlType.sqlText => SqlValue.str (pyStr c)

/-- The trim on line 120 of the Loader: `df = df[ordered_cols]`, keeping
exactly the expected columns in the expected order. -/
def trim_cols (file : CsvFile) (cols : List String) :
    List (List LoadCell) :=
  file.rows.map (fun row => cols.map (getCol file.header row))

/-- Models `coerce_types` on the trimmed frame: each declared column is
coerced by its declared type.  (The missing-column branch inside
`coerce_types` cannot fire after the trim, since the trimmed frame has
exactly the schema columns.) -/
def coerce_types (schema : List (String × SqlType))
    (trimmed : List (List LoadCell)) : List (List SqlValue) :=
  trimmed.map (fun row => (schema.zip row).map (fun p => coerceValue p.1.2 p.2))

/-- The relational store state for one table name: null when the table
does not exist, otherwise its rows. -/
abbrev SqlTable := List (List SqlValue)

/-- Models `create_table`: DROP TABLE IF EXISTS when replace is set, then
CREATE TABLE IF NOT EXISTS (an existing table is reused). -/
def create_table (db : Option SqlTable) (replace : Bool) : Option SqlTable :=
  let db := if replace then none else db
  some (db.getD [])

/-- Models `insert_rows`: append all rows to the (existing) table. -/
def insert_rows (db : Option SqlTable) (rows : List (List SqlValue)) :
    Option SqlTable :=
  db.map (fun t => t ++ rows)

/-- One Loader run against the store, after the CSV has been read and
coerced: `create_table` then `insert_rows`. -/
def load (db : Option SqlTable) (rows : List (List SqlValue))
    (replace : Bool) : Option SqlTable :=
  insert_rows (create_table db replace) rows

/-- Number of rows of the (possibly missing) table. -/
def rowCount (db : Option SqlTable) : Nat :=
  (db.getD []).length

/-- The `SystemExit` message naming the missing columns on line 119. -/
def missingColsMsg (missing : List String) : String :=
  "CSV missing expected columns: " ++ toString missing

/-- Outcome of one Loader invocation: the store state for the target table
after the run, and the fatal error message if one was raised. -/
structure LoadOutcome where
  db : Option SqlTable
  err : Option String
deriving DecidableEq, Repr

/-- Models `main` of the Loader (lines 98-130) on an already-read file:
schema selection, the missing-column check (raised before the store is
touched, so the store is unchanged on error), the trim to the expected
columns in order, the type coercion, and the create + insert. -/
def loader_main (file : CsvFile) (schemaName : String) (replace : Bool)
    (db0 : Option SqlTable) : LoadOutcome :=
  match infer_schema schemaName with
  | Except.error e => ⟨db0, some e⟩
  | Except.ok (schema, cols) =>
      let missing := cols.filter (fun c => !(file.header.contains c))
      if missing.isEmpty then
        ⟨load db0 (coerce_types schema (trim_cols file cols)) replace, none⟩
      else
        ⟨db0, some (missingColsMsg missing)⟩

/-! ### Helper lemmas -/

theorem wide_pre_eq_filterMap (rows : List RawRow) :
    wide_pre rows = rows.filterMap toWide? := by
  induction rows with
  | nil => rfl
  | cons r rs ih =>
    unfold wide_pre at *
    cases h : to_date r with
    | none => simp [List.filterMap_cons, h, toWide?, ih]
    | some d =>
      cases hn : hasAllNums (r, d) <;>
        simp [List.filterMap_cons, h, hn, toWide?, ih]

theorem sort_by_date_perm (l : List WideRow) : (sort_by_date l).Perm l :=
  List.perm_insertionSort _ l

theorem mem_sort_by_date {w : WideRow} {l : List WideRow} :
    w ∈ sort_by_date l ↔ w ∈ l :=
  (sort_by_date_perm l).mem_iff

theorem dedupeAux_sublist (l : List WideRow) :
    ∀ seen, (dedupeAux seen l).Sublist l := by
  induction l with
  | nil => intro seen; simp [dedupeAux]
  | cons r rs ih =>
    intro seen
    rw [dedupeAux]
    split
    · exact (ih _).cons _
    · exact (ih _).cons₂ _

theorem dedupeAux_filter (k : Date × Option Int × Option Int × Option Int ×
    Option Int × Option Int × Option Int × Option Int)
    (l : List WideRow) :
    ∀ seen, (dedupeAux seen l).filter (fun r => drawKey r == k) =
      if k ∈ seen then [] else (l.find? (fun r => drawKey r == k)).toList := by
  induction l with
  | nil => intro seen; simp [dedupeAux]
  | cons r rs ih =>
    intro seen
    rw [dedupeAux]
    by_cases hr : drawKey r ∈ seen
    · rw [if_pos hr, ih]
      by_cases hk : k ∈ seen
      · simp [hk]
      · have hne : ¬ drawKey r = k := fun h => hk (h ▸ hr)
        simp [hk, List.find?_cons, hne]
    · rw [if_neg hr]
      by_cases hk : drawKey r = k
      · subst hk
        rw [List.filter_cons, if_pos (by simp), ih,
          if_pos (List.mem_cons_self _ _), if_neg hr]
        simp [List.find?_cons]
      · have hne : (drawKey r == k) = false := by simp [hk]
        have hk2 : ¬ k = drawKey r := fun h => hk h.symm
        rw [List.filter_cons, if_neg (by simp [hne]), ih]
        simp [List.find?_cons, hne, List.mem_cons, hk2]

theorem perm_append_swap {α : Type} (A B C : List α) :
    (A ++ (B ++ C)).Perm (B ++ (A ++ C)) := by
  rw [← List.append_assoc, ← List.append_assoc]
  exact List.Perm.append_right C List.perm_append_comm

theorem map_append_flatMap_perm {α β : Type} (f : α → β) (g : α → List β)
    (ws : List α) :
    (ws.map f ++ ws.flatMap g).Perm (ws.flatMap (fun w => f w :: g w)) := by
  induction ws with
  | nil => simp
  | cons w ws ih =>
    simp only [List.map_cons, List.flatMap_cons, List.cons_append]
    refine List.Perm.cons (f w) ?_
    exact (perm_append_swap (ws.map f) (g w) (ws.flatMap g)).trans
      (List.Perm.append_left (g w) ih)

theorem flatMap_singleton_map {α β : Type} (f : α → β) (ws : List α) :
    ws.map f = ws.flatMap (fun w => [f w]) := by
  induction ws with
  | nil => rfl
  | cons w ws ih => simp [List.flatMap_cons, ih]

theorem assign11_of_len (row : List Cell) (h : row.length = 11) :
    ∃ rr : RawRow, assign11 row = some rr ∧ rr.toList = row := by
  rcases row with _ | ⟨g, row⟩; · simp at h
  rcases row with _ | ⟨mo, row⟩; · simp at h
  rcases row with _ | ⟨d, row⟩; · simp at h
  rcases row with _ | ⟨y, row⟩; · simp at h
  rcases row with _ | ⟨n1, row⟩; · simp at h
  rcases row with _ | ⟨n2, row⟩; · simp at h
  rcases row with _ | ⟨n3, row⟩; · simp at h
  rcases row with _ | ⟨n4, row⟩; · simp at h
  rcases row with _ | ⟨n5, row⟩; · simp at h
  rcases row with _ | ⟨pb, row⟩; · simp at h
  rcases row with _ | ⟨pp, row⟩; · simp at h
  rcases row with _ | ⟨x, row⟩
  · exact ⟨⟨g, mo, d, y, n1, n2, n3, n4, n5, pb, pp⟩, rfl, rfl⟩
  · simp at h

theorem flatMap_nil_const {α β : Type} (fs : List α) :
    fs.flatMap (fun _ => ([] : List β)) = [] := by
  induction fs with
  | nil => rfl
  | cons f fs ih => simp [List.flatMap_cons, ih]

theorem flatMap_cons_head_perm {α β : Type} (fs : List (α → β)) (w : α)
    (g : (α → β) → List β) :
    (fs.flatMap (fun f => f w :: g f)).Perm
      (fs.map (fun f => f w) ++ fs.flatMap g) := by
  induction fs with
  | nil => simp
  | cons f fs ihf =>
    simp only [List.flatMap_cons, List.map_cons, List.cons_append]
    exact List.Perm.cons _ ((List.Perm.append_left (g f) ihf).trans
      (perm_append_swap (g f) (fs.map fun f => f w) (fs.flatMap g)))

theorem flatMap_maps_perm {α β : Type} (fs : List (α → β)) (ws : List α) :
    (fs.flatMap (fun f => ws.map f)).Perm
      (ws.flatMap (fun w => fs.map (fun f => f w))) := by
  induction ws with
  | nil => simp [flatMap_nil_const]
  | cons w ws ih =>
    simp only [List.map_cons, List.flatMap_cons]
    exact (flatMap_cons_head_perm fs w (fun f => ws.map f)).trans
      (List.Perm.append_left _ ih)

theorem build_long_eq (wide : List WideRow) :
    build_long wide = melt_main wide ++ pb_rows wide := by
  simp [build_long, renumber]

theorem mkDate_some {y m d : Int} {dt : Date} (h : mkDate y m d = some dt) :
    dateValid dt := by
  unfold mkDate at h
  by_cases hv : dateValid ⟨y, m, d⟩
  · rw [if_pos hv] at h
    cases h
    exact hv
  · rw [if_neg hv] at h
    cases h

theorem to_date_valid {r : RawRow} {d : Date} (h : to_date r = some d) :
    dateValid d := by
  unfold to_date at h
  rcases hy : toNumeric r.Year with _ | y <;>
    rcases hm : toNumeric r.Month with _ | m <;>
    rcases hd2 : toNumeric r.Day with _ | dd <;>
    simp only [hy, hm, hd2] at h <;>
    first
      | cases h
      | exact mkDate_some h

theorem toWide?_some {r : RawRow} {w : WideRow} (h : toWide? r = some w) :
    ∃ d, to_date r = some d ∧ hasAllNums (r, d) = true ∧ w = toWideRow (r, d) := by
  cases hd : to_date r with
  | none => simp [toWide?, hd] at h
  | some d =>
    by_cases hn : hasAllNums (r, d)
    · refine ⟨d, rfl, hn, ?_⟩
      simp [toWide?, hd, hn] at h
      exact h.symm
    · simp [toWide?, hd, hn] at h

theorem mem_build_wide {rows : List RawRow} {w : WideRow}
    (hw : w ∈ build_wide rows) : ∃ r ∈ rows, toWide? r = some w := by
  have h1 : w ∈ sort_by_date (wide_pre rows) :=
    (dedupeAux_sublist (sort_by_date (wide_pre rows)) []).subset hw
  have h2 : w ∈ wide_pre rows := mem_sort_by_date.mp h1
  rw [wide_pre_eq_filterMap] at h2
  simpa using List.mem_filterMap.mp h2

theorem toWide?_fields {r : RawRow} {w : WideRow} (h : toWide? r = some w) :
    w.Num1.isSome ∧ w.Num2.isSome ∧ w.Num3.isSome ∧ w.Num4.isSome ∧
    w.Num5.isSome ∧ w.Powerball.isSome ∧ dateValid w.Date ∧
    to_date r = some w.Date ∧ w.PowerPlay = toNumeric r.PowerPlay := by
  obtain ⟨d, hd, hn, hw⟩ := toWide?_some h
  subst hw
  have hnum := hn
  simp only [hasAllNums, Bool.and_eq_true] at hnum
  obtain ⟨⟨⟨⟨⟨a1, a2⟩, a3⟩, a4⟩, a5⟩, a6⟩ := hnum
  exact ⟨a1, a2, a3, a4, a5, a6, to_date_valid hd, hd, rfl⟩

theorem toWide?_none_iff (r : RawRow) :
    toWide? r = none ↔
      (to_date r = none ∨ toNumeric r.Num1 = none ∨ toNumeric r.Num2 = none ∨
       toNumeric r.Num3 = none ∨ toNumeric r.Num4 = none ∨
       toNumeric r.Num5 = none ∨ toNumeric r.Powerball = none) := by
  unfold toWide? hasAllNums
  cases hd : to_date r <;>
    rcases h1 : toNumeric r.Num1 with _ | n1 <;>
    rcases h2 : toNumeric r.Num2 with _ | n2 <;>
    rcases h3 : toNumeric r.Num3 with _ | n3 <;>
    rcases h4 : toNumeric r.Num4 with _ | n4 <;>
    rcases h5 : toNumeric r.Num5 with _ | n5 <;>
    rcases h6 : toNumeric r.Powerball with _ | n6 <;>
    simp [h1, h2, h3, h4, h5, h6, hd]

theorem filterMap_assign11_toList :
    ∀ rows : List (List Cell), (∀ r ∈ rows, r.length = 11) →
      (rows.filterMap assign11).map RawRow.toList = rows := by
  intro rows
  induction rows with
  | nil => intro _; rfl
  | cons r rs ih =>
    intro h
    obtain ⟨rr, ha, ht⟩ := assign11_of_len r (h r (List.mem_cons_self _ _))
    simp only [List.filterMap_cons, ha, List.map_cons, ht]
    rw [ih (fun x hx => h x (List.mem_cons_of_mem _ hx))]

/-! ### Sample data for the witnesses -/

/-- The 11 cells of the example row of the spec,
`PB,01,05,2020,3,14,22,35,41,9,2`. -/
def sampleCells11 : List Cell :=
  [Cell.text "PB", Cell.num 1, Cell.num 5, Cell.num 2020, Cell.num 3,
   Cell.num 14, Cell.num 22, Cell.num 35, Cell.num 41, Cell.num 9,
   Cell.num 2]

/-- The same example row without the PowerPlay cell. -/
def sampleCells10 : List Cell :=
  [Cell.text "PB", Cell.num 1, Cell.num 5, Cell.num 2020, Cell.num 3,
   Cell.num 14, Cell.num 22, Cell.num 35, Cell.num 41, Cell.num 9]

/-- The example row as a raw record. -/
def sampleRaw : RawRow :=
  ⟨Cell.text "PB", Cell.num 1, Cell.num 5, Cell.num 2020, Cell.num 3,
   Cell.num 14, Cell.num 22, Cell.num 35, Cell.num 41, Cell.num 9,
   Cell.num 2⟩

/-- An input with the example row duplicated. -/
def sampleRows : List RawRow := [sampleRaw, sampleRaw]

/-- The wide row the example row cleans to. -/
def sampleWide : WideRow := toWideRow (sampleRaw, ⟨2020, 1, 5⟩)

/-! ### The claims -/

/-- C4: for every valid 11-column input table, the Ingestor's output
preserves all values and the fixed column order (Game, Month, Day, Year,
Num1..Num5, Powerball, PowerPlay) exactly; for every valid 10-column input
table, the output equals the output for the corresponding 11-column table
in which PowerPlay is null in every row. -/
theorem claim_C4_ingestor_preserves
    (rows11 rows10 : List (List Cell))
    (h11 : ∀ r ∈ rows11, r.length = 11)
    (h10 : ∀ r ∈ rows10, r.length = 10) :
    (∃ out, read_powerball_csv 11 rows11 = Except.ok out ∧
      out.map RawRow.toList = rows11) ∧
    read_powerball_csv 10 rows10 =
      read_powerball_csv 11 (rows10.map (fun r => r ++ [Cell.null])) := by
  refine ⟨⟨rows11.filterMap assign11, rfl, filterMap_assign11_toList rows11 h11⟩, ?_⟩
  simp [read_powerball_csv, List.filterMap_map, Function.comp_def]

/-- Witness for C4 at the example rows. -/
theorem claim_C4_witness :
    (∀ r ∈ [sampleCells11], r.length = 11) ∧
    (∀ r ∈ [sampleCells10], r.length = 10) ∧
    ((∃ out, read_powerball_csv 11 [sampleCells11] = Except.ok out ∧
        out.map RawRow.toList = [sampleCells11]) ∧
      read_powerball_csv 10 [sampleCells10] =
        read_powerball_csv 11 ([sampleCells10].map (fun r => r ++ [Cell.null]))) :=
  ⟨by decide, by decide,
    claim_C4_ingestor_preserves [sampleCells11] [sampleCells10]
      (by decide) (by decide)⟩

/-- C7: the Ingestor fails with the unexpected-column-count error exactly
when the input width is neither 10 nor 11 (and then returns no rows at
all, since the error replaces the output); for widths 10 and 11 it never
raises this error. -/
theorem claim_C7_ingestor_width_error (ncols : Nat)
    (rows : List (List Cell)) :
    ((∃ e, read_powerball_csv ncols rows = Except.error e) ↔
      (ncols ≠ 10 ∧ ncols ≠ 11)) ∧
    (∀ e, read_powerball_csv ncols rows = Except.error e →
      e = unexpectedColsMsg ncols) := by
  unfold read_powerball_csv
  by_cases h11 : ncols = 11
  · simp [h11]
  · by_cases h10 : ncols = 10
    · simp [h10]
    · simp [h11, h10]

/-- C8 counterexample: the data dictionary has no row for the raw-record
field Game (nor Month or Day), so it does not contain one row for every
documented column name of the §3 data model. -/
theorem claim_C8_counterexample :
    ¬ ("Game" ∈ data_dict.map Prod.fst) := by decide

/-- C8 amended: the data dictionary is a fixed constant (independent of
the input), with one (column, description) row for each of the 13 wide
and long output columns, each exactly once; the raw-only fields Game,
Month and Day have no rows. -/
theorem claim_C8_amended_dictionary :
    data_dict.map Prod.fst =
      ["Date", "Num1", "Num2", "Num3", "Num4", "Num5", "Powerball",
       "PowerPlay", "Year", "YearMonth", "BallType", "BallNumber",
       "Position"] ∧
    (data_dict.map Prod.fst).Nodup ∧
    "Game" ∉ data_dict.map Prod.fst ∧
    "Month" ∉ data_dict.map Prod.fst ∧
    "Day" ∉ data_dict.map Prod.fst := by decide

/-- C5: loading the same rows twice with replace gives the same row count
as one load; loading them twice without replace (starting from no table)
doubles the row count of one load; with replace an existing table is
dropped before creation, without replace it is reused and appended to. -/
theorem claim_C5_loader_replace_semantics
    (rows : List (List SqlValue)) (t : SqlTable) (db : Option SqlTable) :
    rowCount (load (load db rows true) rows true) =
      rowCount (load db rows true) ∧
    rowCount (load (load none rows false) rows false) =
      2 * rowCount (load none rows false) ∧
    load (some t) rows true = some rows ∧
    load (some t) rows false = some (t ++ rows) := by
  refine ⟨?_, ?_, ?_, ?_⟩ <;>
    simp [load, create_table, insert_rows, rowCount, Nat.two_mul]

/-- C1: for any two rows of the sorted pre-deduplication wide table that
agree on the key (Date, Num1..Num5, Powerball, PowerPlay), the wide output
of `build_wide` contains exactly one row with that key, and it is the
first row with that key in the Date-ascending sort order (deduplication
runs on the sorted table, `build_wide = dedupe_by_draw ∘ sort_by_date`). -/
theorem claim_C1_dedupe_keeps_first (rows : List RawRow) (r1 r2 : WideRow)
    (h1 : r1 ∈ sort_by_date (wide_pre rows))
    (h2 : r2 ∈ sort_by_date (wide_pre rows))
    (hk : drawKey r1 = drawKey r2) :
    (build_wide rows).filter (fun w => drawKey w == drawKey r1) =
      ((sort_by_date (wide_pre rows)).find?
        (fun w => drawKey w == drawKey r1)).toList ∧
    ((build_wide rows).filter (fun w => drawKey w == drawKey r1)).length
      = 1 := by
  have hb : build_wide rows = dedupeAux [] (sort_by_date (wide_pre rows)) := rfl
  rw [hb, dedupeAux_filter (drawKey r1) (sort_by_date (wide_pre rows)) [],
    if_neg (List.not_mem_nil _)]
  refine ⟨rfl, ?_⟩
  have hs : ((sort_by_date (wide_pre rows)).find?
      (fun w => drawKey w == drawKey r1)).isSome := by
    rw [List.find?_isSome]
    exact ⟨r1, h1, by simp⟩
  obtain ⟨x, hx⟩ := Option.isSome_iff_exists.mp hs
  simp [hx]

/-- Witness for C1 at a duplicated example row. -/
theorem claim_C1_witness :
    sampleWide ∈ sort_by_date (wide_pre sampleRows) ∧
    drawKey sampleWide = drawKey sampleWide ∧
    ((build_wide sampleRows).filter
        (fun w => drawKey w == drawKey sampleWide) =
      ((sort_by_date (wide_pre sampleRows)).find?
        (fun w => drawKey w == drawKey sampleWide)).toList ∧
     ((build_wide sampleRows).filter
        (fun w => drawKey w == drawKey sampleWide)).length = 1) :=
  ⟨by decide, rfl,
    claim_C1_dedupe_keeps_first sampleRows sampleWide sampleWide
      (by decide) (by decide) rfl⟩

/-- C9: in `dedupe_by_draw`, a null PowerPlay compares equal to a null
PowerPlay: two rows agreeing on Date, Num1..Num5 and Powerball whose
PowerPlay values are both null have the same deduplication key, so the
deduplicated table keeps exactly one row with that key, the first one. -/
theorem claim_C9_null_powerplay_duplicate (l : List WideRow)
    (r1 r2 : WideRow) (h1 : r1 ∈ l)
    (hD : r1.Date = r2.Date) (hn1 : r1.Num1 = r2.Num1)
    (hn2 : r1.Num2 = r2.Num2) (hn3 : r1.Num3 = r2.Num3)
    (hn4 : r1.Num4 = r2.Num4) (hn5 : r1.Num5 = r2.Num5)
    (hpb : r1.Powerball = r2.Powerball)
    (hp1 : r1.PowerPlay = none) (hp2 : r2.PowerPlay = none) :
    drawKey r1 = drawKey r2 ∧
    (dedupe_by_draw l).filter (fun w => drawKey w == drawKey r1) =
      (l.find? (fun w => drawKey w == drawKey r1)).toList ∧
    ((dedupe_by_draw l).filter (fun w => drawKey w == drawKey r1)).length
      = 1 := by
  have hkey : drawKey r1 = drawKey r2 := by
    simp [drawKey, hD, hn1, hn2, hn3, hn4, hn5, hpb, hp1, hp2]
  have hd : dedupe_by_draw l = dedupeAux [] l := rfl
  rw [hd, dedupeAux_filter (drawKey r1) l [], if_neg (List.not_mem_nil _)]
  refine ⟨hkey, rfl, ?_⟩
  have hs : (l.find? (fun w => drawKey w == drawKey r1)).isSome := by
    rw [List.find?_isSome]
    exact ⟨r1, h1, by simp⟩
  obtain ⟨x, hx⟩ := Option.isSome_iff_exists.mp hs
  simp [hx]

/-- A wide row with a null PowerPlay, for the C9 witness. -/
def sampleWideNoPP : WideRow :=
  { sampleWide with PowerPlay := none }

/-- Witness for C9 at a list with a duplicated null-PowerPlay row. -/
theorem claim_C9_witness :
    sampleWideNoPP ∈ [sampleWideNoPP, sampleWideNoPP] ∧
    sampleWideNoPP.PowerPlay = none ∧
    (drawKey sampleWideNoPP = drawKey sampleWideNoPP ∧
     (dedupe_by_draw [sampleWideNoPP, sampleWideNoPP]).filter
        (fun w => drawKey w == drawKey sampleWideNoPP) =
       ([sampleWideNoPP, sampleWideNoPP].find?
          (fun w => drawKey w == drawKey sampleWideNoPP)).toList ∧
     ((dedupe_by_draw [sampleWideNoPP, sampleWideNoPP]).filter
        (fun w => drawKey w == drawKey sampleWideNoPP)).length = 1) :=
  ⟨by decide, by decide,
    claim_C9_null_powerplay_duplicate [sampleWideNoPP, sampleWideNoPP]
      sampleWideNoPP sampleWideNoPP (by decide) rfl rfl rfl rfl rfl rfl rfl
      (by decide) (by decide)⟩

/-- C3: every row of the wide output has non-null Num1..Num5 and Powerball
and a (by construction non-null) valid calendar Date derived by `to_date`
from the Month/Day/Year of some input row, with PowerPlay preserved from
that row; and a single input row is dropped by lines 64-78 (yields no wide
row, with no error raised anywhere in the pipeline) exactly when its date
derivation coerces to null or one of Num1..Num5, Powerball coerces to
null — a null PowerPlay never causes a drop. -/
theorem claim_C3_wide_invariants (rows : List RawRow) (w : WideRow)
    (hw : w ∈ build_wide rows) :
    (w.Num1.isSome ∧ w.Num2.isSome ∧ w.Num3.isSome ∧ w.Num4.isSome ∧
     w.Num5.isSome ∧ w.Powerball.isSome ∧ dateValid w.Date ∧
     ∃ r ∈ rows, toWide? r = some w ∧ to_date r = some w.Date ∧
       w.PowerPlay = toNumeric r.PowerPlay) ∧
    (∀ r : RawRow, toWide? r = none ↔
      (to_date r = none ∨ toNumeric r.Num1 = none ∨
       toNumeric r.Num2 = none ∨ toNumeric r.Num3 = none ∨
       toNumeric r.Num4 = none ∨ toNumeric r.Num5 = none ∨
       toNumeric r.Powerball = none)) := by
  obtain ⟨r, hr, hsome⟩ := mem_build_wide hw
  obtain ⟨a1, a2, a3, a4, a5, a6, hv, hdate, hpp⟩ := toWide?_fields hsome
  exact ⟨⟨a1, a2, a3, a4, a5, a6, hv, r, hr, hsome, hdate, hpp⟩,
    fun r => toWide?_none_iff r⟩

/-- Witness for C3 at the example input. -/
theorem claim_C3_witness :
    sampleWide ∈ build_wide sampleRows ∧
    ((sampleWide.Num1.isSome ∧ sampleWide.Num2.isSome ∧
      sampleWide.Num3.isSome ∧ sampleWide.Num4.isSome ∧
      sampleWide.Num5.isSome ∧ sampleWide.Powerball.isSome ∧
      dateValid sampleWide.Date ∧
      ∃ r ∈ sampleRows, toWide? r = some sampleWide ∧
        to_date r = some sampleWide.Date ∧
        sampleWide.PowerPlay = toNumeric r.PowerPlay) ∧
     (∀ r : RawRow, toWide? r = none ↔
       (to_date r = none ∨ toNumeric r.Num1 = none ∨
        toNumeric r.Num2 = none ∨ toNumeric r.Num3 = none ∨
        toNumeric r.Num4 = none ∨ toNumeric r.Num5 = none ∨
        toNumeric r.Powerball = none))) :=
  ⟨by decide, claim_C3_wide_invariants sampleRows sampleWide (by decide)⟩

/-- C10: every row of the long table built from the Transformer's wide
output has a non-null BallNumber, which is one of Num1..Num5 or Powerball
of some wide row (all non-null after the wide filtering). -/
theorem claim_C10_ballnumber_non_null (rows : List RawRow) (lr : LongRow)
    (hlr : lr ∈ build_long (build_wide rows)) :
    lr.BallNumber.isSome ∧
    ∃ w ∈ build_wide rows,
      (lr.BallNumber = w.Num1 ∨ lr.BallNumber = w.Num2 ∨
       lr.BallNumber = w.Num3 ∨ lr.BallNumber = w.Num4 ∨
       lr.BallNumber = w.Num5 ∨ lr.BallNumber = w.Powerball) := by
  rw [build_long_eq] at hlr
  rcases List.mem_append.mp hlr with hm | hp
  · obtain ⟨vp, hvp, hlm⟩ := List.mem_flatMap.mp hm
    obtain ⟨w, hw, rfl⟩ := List.mem_map.mp hlm
    obtain ⟨r, _, hsome⟩ := mem_build_wide hw
    obtain ⟨a1, a2, a3, a4, a5, a6, -, -, -⟩ := toWide?_fields hsome
    simp only [value_vars, List.mem_cons, List.not_mem_nil, or_false]
      at hvp
    rcases hvp with rfl | rfl | rfl | rfl | rfl <;>
      simp [mainRowOf] <;>
      exact ⟨by assumption, w, hw, by simp⟩
  · obtain ⟨w, hw, rfl⟩ := List.mem_map.mp hp
    obtain ⟨r, _, hsome⟩ := mem_build_wide hw
    obtain ⟨-, -, -, -, -, a6, -, -, -⟩ := toWide?_fields hsome
    exact ⟨a6, w, hw, by simp [pbRowOf]⟩

/-- A long row of the example pipeline output, for the C10 witness. -/
def sampleLong : LongRow := mainRowOf ("Num1", WideRow.Num1) sampleWide

/-- Witness for C10 at the example input. -/
theorem claim_C10_witness :
    sampleLong ∈ build_long (build_wide sampleRows) ∧
    (sampleLong.BallNumber.isSome ∧
     ∃ w ∈ build_wide sampleRows,
       (sampleLong.BallNumber = w.Num1 ∨ sampleLong.BallNumber = w.Num2 ∨
        sampleLong.BallNumber = w.Num3 ∨ sampleLong.BallNumber = w.Num4 ∨
        sampleLong.BallNumber = w.Num5 ∨
        sampleLong.BallNumber = w.Powerball)) :=
  ⟨by decide,
    claim_C10_ballnumber_non_null sampleRows sampleLong (by decide)⟩

theorem extractDigits_Num1 : extractDigits "Num1" = 1 := by decide

theorem extractDigits_Num2 : extractDigits "Num2" = 2 := by decide

theorem extractDigits_Num3 : extractDigits "Num3" = 3 := by decide

theorem extractDigits_Num4 : extractDigits "Num4" = 4 := by decide

theorem extractDigits_Num5 : extractDigits "Num5" = 5 := by decide

/-- The six Ball Records the round-trip claim associates with one wide
row: five Main rows with Position 1..5 and BallNumber Num1..Num5, and one
Powerball row with Position "PB" and BallNumber Powerball, each carrying
the Date, PowerPlay, Year and YearMonth of the source wide row. -/
def drawLongRows (w : WideRow) : List LongRow :=
  [{ Date := w.Date, BallType := "Main", BallNumber := w.Num1,
     Position := BallPos.posInt 1, PowerPlay := w.PowerPlay,
     Year := w.Year, YearMonth := w.YearMonth },
   { Date := w.Date, BallType := "Main", BallNumber := w.Num2,
     Position := BallPos.posInt 2, PowerPlay := w.PowerPlay,
     Year := w.Year, YearMonth := w.YearMonth },
   { Date := w.Date, BallType := "Main", BallNumber := w.Num3,
     Position := BallPos.posInt 3, PowerPlay := w.PowerPlay,
     Year := w.Year, YearMonth := w.YearMonth },
   { Date := w.Date, BallType := "Main", BallNumber := w.Num4,
     Position := BallPos.posInt 4, PowerPlay := w.PowerPlay,
     Year := w.Year, YearMonth := w.YearMonth },
   { Date := w.Date, BallType := "Main", BallNumber := w.Num5,
     Position := BallPos.posInt 5, PowerPlay := w.PowerPlay,
     Year := w.Year, YearMonth := w.YearMonth },
   { Date := w.Date, BallType := "Powerball", BallNumber := w.Powerball,
     Position := BallPos.posStr "PB", PowerPlay := w.PowerPlay,
     Year := w.Year, YearMonth := w.YearMonth }]

/-- C2: the long table is, up to the block order of the melt, exactly the
concatenation over the wide rows of their six Ball Records: five Main
rows (Position 1..5, BallNumber Num1..Num5) and one Powerball row
(Position "PB", BallNumber Powerball), each carrying the Date, PowerPlay,
Year and YearMonth of its wide row — and nothing else. -/
theorem claim_C2_round_trip_reshape (wide : List WideRow) :
    (build_long wide).Perm (wide.flatMap drawLongRows) := by
  rw [build_long_eq]
  have hsplit : melt_main wide ++ pb_rows wide =
      (value_vars.map mainRowOf ++ [pbRowOf]).flatMap
        (fun f => wide.map f) := by
    simp [melt_main, pb_rows, List.flatMap_append, List.flatMap_map,
      List.flatMap_cons, List.flatMap_nil]
  rw [hsplit]
  refine (flatMap_maps_perm _ wide).trans ?_
  have hfun : (fun w => (value_vars.map mainRowOf ++ [pbRowOf]).map
      (fun f => f w)) = drawLongRows := by
    funext w
    simp [value_vars, drawLongRows, mainRowOf, pbRowOf, extractDigits_Num1,
      extractDigits_Num2, extractDigits_Num3, extractDigits_Num4,
      extractDigits_Num5]
  rw [hfun]

/-- C6: with a declared schema ("long" or "wide"), the Loader raises the
fatal missing-column error, naming the missing columns, and leaves the
store untouched (no partial load) when some expected column is absent
from the input header; when all expected columns are present it succeeds,
inserting exactly the input rows trimmed to the expected columns in the
expected order and then coerced, one inserted row per input row. -/
theorem claim_C6_loader_validation (file : CsvFile) (sn : String)
    (replace : Bool) (db0 : Option SqlTable)
    (schema : List (String × SqlType)) (cols : List String)
    (hs : infer_schema sn = Except.ok (schema, cols)) :
    ((∃ c ∈ cols, ¬ c ∈ file.header) →
      (loader_main file sn replace db0).err =
        some (missingColsMsg
          (cols.filter (fun c => !(file.header.contains c)))) ∧
      (loader_main file sn replace db0).db = db0) ∧
    ((∀ c ∈ cols, c ∈ file.header) →
      (loader_main file sn replace db0).err = none ∧
      (loader_main file sn replace db0).db =
        load db0 (coerce_types schema (trim_cols file cols)) replace ∧
      (coerce_types schema (trim_cols file cols)).length =
        file.rows.length) := by
  unfold loader_main
  rw [hs]
  constructor
  · rintro ⟨c, hc, hnc⟩
    have hnall : ¬ ∀ a ∈ cols, a ∈ file.header := fun hA => hnc (hA c hc)
    simp [hnall]
  · intro hall
    have hempt : (cols.filter
        (fun c => !(file.header.contains c))).isEmpty = true := by
      rw [List.isEmpty_iff, List.filter_eq_nil_iff]
      intro a ha
      simp [List.elem_iff, hall a ha]
    simp [hempt, coerce_types, trim_cols]
    rw [if_pos hall]
    exact ⟨rfl, rfl⟩

/-- A one-row long-schema CSV input, for the C6 witness. -/
def sampleCsv : CsvFile :=
  ⟨LONG_COLS,
   [[some "2020-01-05", some "Main", some "3", some "1", some "2",
     some "2020", some "2020-01"]]⟩

/-- Witness for C6 at a well-formed long CSV. -/
theorem claim_C6_witness :
    infer_schema "long" = Except.ok (long_schema, LONG_COLS) ∧
    (((∃ c ∈ LONG_COLS, ¬ c ∈ sampleCsv.header) →
       (loader_main sampleCsv "long" false none).err =
         some (missingColsMsg
           (LONG_COLS.filter (fun c => !(sampleCsv.header.contains c)))) ∧
       (loader_main sampleCsv "long" false none).db = none) ∧
     ((∀ c ∈ LONG_COLS, c ∈ sampleCsv.header) →
       (loader_main sampleCsv "long" false none).err = none ∧
       (loader_main sampleCsv "long" false none).db =
         load none (coerce_types long_schema
           (trim_cols sampleCsv LONG_COLS)) false ∧
       (coerce_types long_schema (trim_cols sampleCsv LONG_COLS)).length =
         sampleCsv.rows.length)) :=
  ⟨rfl, claim_C6_loader_validation sampleCsv "long" false none
    long_schema LONG_COLS rfl⟩
